import Mathlib

/-!
Shallow embedding of the scheduling and device-reconciliation core of
`src/server.py` (an ESP32 room-controller automation server built on Flask,
APScheduler and sqlite3), together with theorems checking the repository's
natural-language specification against it.

Modelling conventions:
* SQLite tables become Lean lists (`List Schedule` for the `schedules` table,
  `List (String × String)` for the `config` table).
* The APScheduler job table (`scheduler`) becomes an association list
  `JobTable` of job id, trigger and callback argument; `remove_job` /
  `add_job` are embedded by their observable effect on that table.
* A Python exception escaping a function is an `Except.error` carrying a
  `PyError`; functions that mutate a global and can raise return the mutated
  state alongside an `Option PyError` (the state at the moment of the throw).
* HTTP traffic is embedded by a `Device` oracle giving each endpoint's
  outcome, and functions return the `List Call` of requests they issued.
-/

namespace Server

/-- Whitespace characters stripped by Python `str.strip()` / `int(str)`. -/
def isPyWs (c : Char) : Bool :=
  c == ' ' || c == '\t' || c == '\n' || c == '\r' || c == '\x0b' || c == '\x0c'

/-- Strip leading and trailing Python whitespace from a character list. -/
def stripWsChars (cs : List Char) : List Char :=
  ((cs.dropWhile isPyWs).reverse.dropWhile isPyWs).reverse

/-- Python `str.strip()` with no argument, as used on the relay-status body
(`resp.text.strip()`, src/server.py line 101). -/
def pyStrip (s : String) : String :=
  ⟨stripWsChars s.data⟩

/-- Value of a decimal digit list, most significant first. -/
def digitsVal (ds : List Char) : Int :=
  ds.foldl (fun acc c => 10 * acc + ((c.toNat : Int) - 48)) 0

/-- Python `int(s)` in base 10: optional surrounding whitespace, optional
single sign, then one or more decimal digits; anything else raises
`ValueError`, embedded as `none`. (Digit-group underscores are not modelled;
no claim depends on them.) -/
def pyInt (s : String) : Option Int :=
  match stripWsChars s.data with
  | '-' :: ds => if ds ≠ [] ∧ ds.all Char.isDigit then some (-(digitsVal ds)) else none
  | '+' :: ds => if ds ≠ [] ∧ ds.all Char.isDigit then some (digitsVal ds) else none
  | ds => if ds ≠ [] ∧ ds.all Char.isDigit then some (digitsVal ds) else none

/-- Whether a character is a hexadecimal digit accepted by `int(_, 16)`. -/
def isHexDigitChar (c : Char) : Bool :=
  c.isDigit || ('a' ≤ c && c ≤ 'f') || ('A' ≤ c && c ≤ 'F')

/-- Value of one hexadecimal digit. -/
def hexVal (c : Char) : Int :=
  if c.isDigit then (c.toNat : Int) - 48
  else if 'a' ≤ c ∧ c ≤ 'f' then (c.toNat : Int) - 87
  else if 'A' ≤ c ∧ c ≤ 'F' then (c.toNat : Int) - 55
  else 0

/-- Python `int(s, 16)` restricted to plain hexadecimal-digit strings, the
only forms a well-formed 6-hex-digit color slice can take: `none` embeds the
`ValueError` raised on the empty string or on a non-hex character. (Python
additionally accepts signed, whitespace-padded or `0x`-prefixed input; those
forms are mapped to `none` here and never arise from the claims' inputs.) -/
def pyIntHex (s : String) : Option Int :=
  if s.data ≠ [] ∧ s.data.all isHexDigitChar then
    some (s.data.foldl (fun acc c => 16 * acc + hexVal c) 0)
  else none

/-- Python slice `s[a:b]` for `0 ≤ a ≤ b`: clamps at the string end. -/
def pySlice (s : String) (a b : Nat) : String :=
  ⟨(s.data.drop a).take (b - a)⟩

/-- Python `s.lstrip("#")`: drop every leading `'#'`
(src/server.py line 115). -/
def pyLstripHash (s : String) : String :=
  ⟨s.data.dropWhile (· == '#')⟩

/-- Python list indexing `l[i]`, including negative indices from the end;
`none` embeds `IndexError`. -/
def pyIndex (l : List String) (i : Int) : Option String :=
  if 0 ≤ i then l.get? i.toNat
  else if -(l.length : Int) ≤ i then l.get? ((l.length : Int) + i).toNat
  else none

/-- Python `str.split(sep)` on a character list for a one-character
separator: splits at every occurrence, keeping empty groups, and yields one
(empty) group for the empty string. -/
def pySplitChars (sep : Char) (cs : List Char) : List (List Char) :=
  match cs with
  | [] => [[]]
  | c :: rest =>
    if c = sep then [] :: pySplitChars sep rest
    else
      match pySplitChars sep rest with
      | [] => [[c]]
      | g :: gs => (c :: g) :: gs

/-- Python `s.split(sep)` for the one-character separators `":"` and `","`
used by `schedule_job` (src/server.py lines 139-140). -/
def pySplit (s : String) (sep : Char) : List String :=
  (pySplitChars sep s.data).map (fun g => ⟨g⟩)

/-- Python exceptions that the embedded code can raise or mention. -/
inductive PyError where
  | valueError
  | indexError
  | typeError
  | notFound
deriving DecidableEq

/-- A row of the `schedules` table (src/server.py lines 33-46): SQLite
INTEGER columns are `Int`, TEXT columns are `String`. -/
structure Schedule where
  id : Int
  name : String
  time : String
  days : String
  action : String
  relay : Int
  strip : Int
  brightness : Int
  color : String
  enabled : Int
deriving DecidableEq

/-- `DAY_NAMES` (src/server.py line 71). -/
def DAY_NAMES : List String := ["mon", "tue", "wed", "thu", "fri", "sat", "sun"]

/-- The cron trigger built at src/server.py line 142:
`CronTrigger(day_of_week=day_names, hour=int(hour), minute=int(minute))`. -/
structure CronTrigger where
  day_of_week : String
  hour : Int
  minute : Int
deriving DecidableEq

/-- A query-string value sent to the device: Python ints and strings. -/
inductive PVal where
  | int (i : Int)
  | str (s : String)
deriving DecidableEq

/-- Query parameters of a device HTTP call, in insertion order. -/
abbrev Params := List (String × PVal)

/-- One outbound HTTP request to the device (src/server.py lines 100, 104,
129): the relay status GET, the relay toggle GET, or the strip GET with its
parameters. -/
inductive Call where
  | relaystatus
  | relay
  | strip (ps : Params)
deriving DecidableEq

/-- A transport failure of one HTTP request: `requests.RequestException`. -/
inductive TransportErr where
  | timeout
  | connRefused
deriving DecidableEq

/-- Behaviour of the remote device during one trigger execution: the outcome
of each endpoint if it is called. A successful relay-status call carries the
response body text. -/
structure Device where
  relaystatus : Except TransportErr String
  relay : Except TransportErr Unit
  strip : Params → Except TransportErr Unit

/-- A transport outcome that the source catches and only logs: either way
the surrounding computation continues with `calls`
(the `except http_requests.RequestException` arms at src/server.py
lines 108 and 131). -/
def caught (r : Except TransportErr Unit) (calls : List Call) : List Call :=
  match r with
  | Except.ok _ => calls
  | Except.error _ => calls

/-- `_set_relay(base_url, turn_on)` (src/server.py lines 98-109): fetch the
relay status, trim it, compare with the desired state and toggle only on a
mismatch; every `RequestException` is caught and logged. Returns the list of
HTTP calls issued. -/
def set_relay (dev : Device) (turn_on : Bool) : List Call :=
  match dev.relaystatus with
  | Except.error _ => [Call.relaystatus]
  | Except.ok body =>
    let current := pyStrip body
    let desired := if turn_on then "ON" else "OFF"
    if current ≠ desired then
      caught dev.relay [Call.relaystatus, Call.relay]
    else
      [Call.relaystatus]

/-- The strip query parameters computed inside `_set_strip` (src/server.py
lines 114-128): for `action == "on"` the color is `lstrip`-ped of `'#'` and
hex-split into `r`, `g`, `b`; `none` embeds the `ValueError` raised by
`int(_, 16)` on a malformed slice. For any other action the parameters are
`{"on": 0}`. -/
def stripParams (s : Schedule) : Option Params :=
  if s.action = "on" then
    let color := pyLstripHash s.color
    match pyIntHex (pySlice color 0 2) with
    | none => none
    | some r =>
      match pyIntHex (pySlice color 2 4) with
      | none => none
      | some g_val =>
        match pyIntHex (pySlice color 4 6) with
        | none => none
        | some b =>
          some [("on", PVal.int 1), ("brightness", PVal.int s.brightness),
                ("r", PVal.int r), ("g", PVal.int g_val), ("b", PVal.int b),
                ("mode", PVal.str "solid")]
  else
    some [("on", PVal.int 0)]

/-- `_set_strip(base_url, schedule)` (src/server.py lines 112-132). The
`try` block catches only `RequestException`, so a color-decoding
`ValueError` escapes (`Except.error`), while a transport failure of the GET
is caught and the function returns normally with the call issued. -/
def set_strip (dev : Device) (s : Schedule) : Except PyError (List Call) :=
  match stripParams s with
  | none => Except.error PyError.valueError
  | some ps => Except.ok (caught (dev.strip ps) [Call.strip ps])

/-- `get_config(key)` (src/server.py lines 61-66) over the embedded `config`
table: value of the first row with the given key, `none` when absent. -/
def get_config (config : List (String × String)) (key : String) : Option String :=
  (config.find? (fun kv => kv.1 == key)).map (fun kv => kv.2)

/-- `execute_schedule(schedule_id)` (src/server.py lines 74-95): re-fetch
the schedule by id (absent: log and return), fetch the device URL (falsy:
log and return), then run the relay sub-step if `schedule["relay"]` is
truthy and the strip sub-step if `schedule["strip"]` is truthy. The result
is the list of HTTP calls issued, or the Python error that escaped. -/
def execute_schedule (store : List Schedule) (config : List (String × String))
    (dev : Device) (schedule_id : Int) : Except PyError (List Call) :=
  match store.find? (fun s => s.id == schedule_id) with
  | none => Except.ok []
  | some schedule =>
    match get_config config "esp32_url" with
    | none => Except.ok []
    | some base_url =>
      if base_url = "" then Except.ok []
      else
        let relayCalls := if schedule.relay ≠ 0 then set_relay dev (schedule.action == "on") else []
        match (if schedule.strip ≠ 0 then set_strip dev schedule else Except.ok []) with
        | Except.error e => Except.error e
        | Except.ok stripCalls => Except.ok (relayCalls ++ stripCalls)

/-- The record `add_job` stores for one job: the cron trigger and the
`args=[schedule["id"]]` bound to the callback (src/server.py lines 150-156). -/
abbrev JobRec := CronTrigger × Int

/-- The APScheduler job table: job id to job record, in insertion order. -/
abbrev JobTable := List (String × JobRec)

/-- The job id `f"schedule_{schedule['id']}"` (src/server.py line 138). -/
def jobIdOf (sid : Int) : String := "schedule_" ++ toString sid

/-- `scheduler.remove_job(job_id)`: drop the job with that id. The
`JobLookupError` raised when it is absent is caught (`except Exception:
pass`, src/server.py lines 144-147), so the embedded effect is a plain
filter. -/
def remove_job (t : JobTable) (jid : String) : JobTable :=
  t.filter (fun j => !(j.1 == jid))

/-- `scheduler.add_job(..., id=job_id, replace_existing=True)`
(src/server.py lines 150-156): any job under that id is replaced. -/
def add_job (t : JobTable) (jid : String) (rec : JobRec) : JobTable :=
  remove_job t jid ++ [(jid, rec)]

/-- The trigger derivation of `schedule_job` (src/server.py lines 139-142):
unpack `time` on `":"` (a `ValueError` unless exactly two parts), parse each
comma-separated day with `int`, index `DAY_NAMES` with each day, join the
names, and parse hour and minute with `int`. -/
def deriveTrigger (s : Schedule) : Except PyError CronTrigger :=
  match pySplit s.time ':' with
  | [hourS, minuteS] =>
    match (pySplit s.days ',').mapM (fun d =>
        match pyInt d with
        | some n => Except.ok n
        | none => Except.error PyError.valueError) with
    | Except.error e => Except.error e
    | Except.ok day_nums =>
      match day_nums.mapM (fun d =>
          match pyIndex DAY_NAMES d with
          | some nm => Except.ok nm
          | none => Except.error PyError.indexError) with
      | Except.error e => Except.error e
      | Except.ok day_names =>
        match pyInt hourS with
        | none => Except.error PyError.valueError
        | some h =>
          match pyInt minuteS with
          | none => Except.error PyError.valueError
          | some m => Except.ok ⟨String.intercalate "," day_names, h, m⟩
  | _ => Except.error PyError.valueError

/-- `schedule_job(schedule)` (src/server.py lines 137-157): derive the cron
trigger first; only then remove any existing job for the id, and re-add one
when the schedule is enabled. A parse failure raises before the job table is
touched, so the table component of the result is then the input table. -/
def schedule_job (t : JobTable) (s : Schedule) : JobTable × Option PyError :=
  match deriveTrigger s with
  | Except.error e => (t, some e)
  | Except.ok trigger =>
    let t1 := remove_job t (jobIdOf s.id)
    if s.enabled ≠ 0 then
      (add_job t1 (jobIdOf s.id) (trigger, s.id), none)
    else
      (t1, none)

/-- Any sequence of `schedule_job` invocations against the shared scheduler,
each call acting on the table the previous one left behind (a raising call
leaves the table unchanged). -/
def reconcileSeq (t : JobTable) (ss : List Schedule) : JobTable :=
  ss.foldl (fun tb s => (schedule_job tb s).1) t

/-- The JSON body of a create/update request (src/server.py lines 185,
212): `name` and `time` are accessed with `data[...]` (required), the rest
with `data.get(...)` and the route's defaults. -/
structure ScheduleData where
  name : String
  time : String
  days : Option String := none
  action : Option String := none
  relay : Option Int := none
  strip : Option Int := none
  brightness : Option Int := none
  color : Option String := none
  enabled : Option Int := none

/-- The row produced by the UPDATE statement of `update_schedule`
(src/server.py lines 214-229) for a matching row: every mutable column is
replaced, with the route's `data.get` defaults; the id is untouched. -/
def rowFromData (data : ScheduleData) (old : Schedule) : Schedule :=
  { id := old.id
    name := data.name
    time := data.time
    days := data.days.getD "0,1,2,3,4,5,6"
    action := data.action.getD "on"
    relay := data.relay.getD 1
    strip := data.strip.getD 1
    brightness := data.brightness.getD 255
    color := data.color.getD "#ffffff"
    enabled := data.enabled.getD 1 }

/-- The `PUT /api/schedules/<sid>` handler `update_schedule` (src/server.py
lines 210-235): run the UPDATE (matching zero or one row, never an error),
commit, then SELECT the row back — `dict(fetchone())` raises `TypeError`
when the id is absent, since `fetchone()` returns `None` — and finally
reconcile via `schedule_job`. Returns the store and job table as left
behind, plus the outcome (the returned schedule, or the escaping error). -/
def update_schedule (store : List Schedule) (jobs : JobTable) (sid : Int)
    (data : ScheduleData) : List Schedule × JobTable × Except PyError Schedule :=
  let store2 := store.map (fun s => if s.id == sid then rowFromData data s else s)
  match store2.find? (fun s => s.id == sid) with
  | none => (store2, jobs, Except.error PyError.typeError)
  | some schedule =>
    match schedule_job jobs schedule with
    | (jobs2, some e) => (store2, jobs2, Except.error e)
    | (jobs2, none) => (store2, jobs2, Except.ok schedule)

/-- The `DELETE /api/schedules/<sid>` handler `delete_schedule`
(src/server.py lines 238-248): delete the row, then remove the job for the
id, swallowing the lookup error if there is none. -/
def delete_schedule (store : List Schedule) (jobs : JobTable) (sid : Int) :
    List Schedule × JobTable :=
  (store.filter (fun s => !(s.id == sid)), remove_job jobs (jobIdOf sid))

/-- Number of registered jobs carrying a given job id. -/
def countId (t : JobTable) (jid : String) : Nat :=
  (t.filter (fun j => j.1 == jid)).length

/-- Number of relay-toggle requests in a call trace. -/
def countToggles (calls : List Call) : Nat :=
  (calls.filter (fun c => c == Call.relay)).length

/-- Modelled from the spec: the weekday names the trigger derivation is
expected to produce, Monday first (0 = Monday … 6 = Sunday), in the cron
abbreviations used by the trigger library. -/
def specWeekdayNames : List String :=
  ["mon", "tue", "wed", "thu", "fri", "sat", "sun"]

/-- The expected weekday name for one index, per the spec's mapping. -/
def specWeekdayName (d : Fin 7) : String :=
  specWeekdayNames.get (Fin.cast (by rfl) d)

/-! ### Concrete fixtures used by witnesses and counterexamples -/

/-- A device whose every endpoint answers, reporting relay state `"ON"`. -/
def devOk : Device := ⟨Except.ok "ON", Except.ok (), fun _ => Except.ok ()⟩

/-- A device whose relay-status call times out; the other endpoints answer. -/
def devTimeout : Device :=
  ⟨Except.error TransportErr.timeout, Except.ok (), fun _ => Except.ok ()⟩

/-- The spec's end-to-end example schedule, enabled, action on. -/
def schedOn : Schedule := ⟨1, "Evening", "18:30", "0,1,2,3,4", "on", 1, 1, 128, "#112233", 1⟩

/-- An enabled schedule with action off, both relay and strip selected. -/
def schedOff : Schedule := ⟨5, "Night", "23:30", "0,1,2,3,4", "off", 1, 1, 128, "#112233", 1⟩

/-- An action-on schedule with color `"#ff0000"`. -/
def schedRed : Schedule := ⟨2, "Red", "07:00", "0", "on", 1, 1, 255, "#ff0000", 1⟩

/-- An action-on schedule with color `"00ff00"` (no `#`). -/
def schedGreen : Schedule := ⟨4, "Green", "07:00", "0", "on", 1, 1, 255, "00ff00", 1⟩

/-- A stored schedule whose color hex is malformed, with the strip selected. -/
def schedBadColor : Schedule := ⟨7, "Bad", "10:00", "0", "on", 0, 1, 255, "zz0000", 1⟩

/-- A stored schedule whose time has no `":"` separator. -/
def schedBadTime : Schedule := ⟨3, "Bad", "1830", "0,1", "on", 1, 1, 255, "#ffffff", 1⟩

/-- A request body carrying only the required fields. -/
def sampleData : ScheduleData := { name := "x", time := "12:00" }

/-- A job table holding one previously registered job for schedule id 3. -/
def preJob : JobTable := [(jobIdOf 3, (⟨"mon", 9, 0⟩, 3))]

/-! ### Helper lemmas -/

theorem caught_eq (r : Except TransportErr Unit) (calls : List Call) :
    caught r calls = calls := by
  cases r <;> rfl

theorem countId_append (a b : JobTable) (jid : String) :
    countId (a ++ b) jid = countId a jid + countId b jid := by
  simp [countId, List.filter_append]

theorem countId_remove_self (t : JobTable) (jid : String) :
    countId (remove_job t jid) jid = 0 := by
  induction t with
  | nil => rfl
  | cons a l ih =>
    simp only [remove_job, countId, List.filter_cons] at ih ⊢
    cases h : a.1 == jid <;> simp [h, ih]

theorem countId_remove_le (t : JobTable) (j' jid : String) :
    countId (remove_job t j') jid ≤ countId t jid := by
  simp only [countId, remove_job]
  exact List.Sublist.length_le (List.Sublist.filter _ (List.filter_sublist t))

theorem countId_single (j jid : String) (r : JobRec) :
    countId [(j, r)] jid = if j == jid then 1 else 0 := by
  simp only [countId, List.filter]
  cases h : j == jid <;> simp [h]

theorem countId_add_self (t : JobTable) (jid : String) (r : JobRec) :
    countId (add_job t jid r) jid = 1 := by
  rw [add_job, countId_append, countId_remove_self, countId_single]
  simp

theorem countId_add_le (t : JobTable) (j' jid : String) (r : JobRec) :
    countId (add_job t j' r) jid ≤ max (countId t jid) 1 := by
  rw [add_job, countId_append, countId_single]
  by_cases h : j' = jid
  · subst h
    rw [countId_remove_self]
    simp
  · have h2 : (j' == jid) = false := by simp [h]
    rw [h2]
    have := countId_remove_le t j' jid
    simp only [if_false, Bool.false_eq_true]
    omega

theorem countId_schedule_job_le (t : JobTable) (s : Schedule) (jid : String) :
    countId (schedule_job t s).1 jid ≤ max (countId t jid) 1 := by
  unfold schedule_job
  cases deriveTrigger s with
  | error e => exact Nat.le_max_left _ _
  | ok tr =>
    dsimp only
    by_cases he : s.enabled ≠ 0
    · rw [if_pos he]
      have h1 := countId_add_le (remove_job t (jobIdOf s.id)) (jobIdOf s.id) jid (tr, s.id)
      have h2 := countId_remove_le t (jobIdOf s.id) jid
      exact Nat.le_trans h1 (Nat.max_le.mpr
        ⟨Nat.le_trans h2 (Nat.le_max_left _ _), Nat.le_max_right _ _⟩)
    · rw [if_neg he]
      exact Nat.le_trans (countId_remove_le t _ jid) (Nat.le_max_left _ _)

theorem countId_reconcileSeq_le (ss : List Schedule) (t : JobTable) (jid : String)
    (h : countId t jid ≤ 1) : countId (reconcileSeq t ss) jid ≤ 1 := by
  induction ss generalizing t with
  | nil => exact h
  | cons s rest ih =>
    have step := countId_schedule_job_le t s jid
    exact ih (schedule_job t s).1 (Nat.le_trans step (Nat.max_le.mpr ⟨h, Nat.le_refl 1⟩))

theorem relaystatus_mem_set_relay (dev : Device) (b : Bool) :
    Call.relaystatus ∈ set_relay dev b := by
  unfold set_relay
  cases dev.relaystatus with
  | error e => simp
  | ok body =>
    dsimp only
    rw [caught_eq]
    split <;> (try split) <;> simp

theorem hex_ne_hash {c : Char} (h : isHexDigitChar c = true) : (c == '#') = false := by
  cases hq : c == '#' with
  | false => rfl
  | true =>
    have hc : c = '#' := eq_of_beq hq
    subst hc
    exact absurd h (by decide)

theorem map_keep_of_none (store : List Schedule) (sid : Int) (data : ScheduleData)
    (h : ∀ s ∈ store, (s.id == sid) = false) :
    store.map (fun s => if s.id == sid then rowFromData data s else s) = store := by
  induction store with
  | nil => rfl
  | cons a l ih =>
    simp only [List.map_cons, List.cons.injEq]
    exact ⟨by rw [if_neg (by simp [h a (List.mem_cons_self a l)])],
           ih (fun s hs => h s (List.mem_cons_of_mem a hs))⟩

/-! ### Claim theorems -/

/-- C1: for every schedule id, reconciling via `schedule_job` keeps at most
one job registered under `schedule_<id>`: a successful reconcile of an
enabled schedule leaves exactly one job for that id, reconciling twice in a
row still leaves exactly one, a successful reconcile of a disabled schedule
leaves none, the delete handler's removal leaves none, and any sequence of
reconcile calls preserves the at-most-one invariant. -/
theorem c1_reconcile_job_uniqueness (t : JobTable) (s : Schedule) (store : List Schedule)
    (hok : (schedule_job t s).2 = none) :
    (s.enabled ≠ 0 → countId (schedule_job t s).1 (jobIdOf s.id) = 1) ∧
    (s.enabled ≠ 0 →
      countId (schedule_job (schedule_job t s).1 s).1 (jobIdOf s.id) = 1) ∧
    (s.enabled = 0 → countId (schedule_job t s).1 (jobIdOf s.id) = 0) ∧
    countId (delete_schedule store t s.id).2 (jobIdOf s.id) = 0 ∧
    (∀ ss : List Schedule, countId t (jobIdOf s.id) ≤ 1 →
      countId (reconcileSeq t ss) (jobIdOf s.id) ≤ 1) := by
  have htr : ∃ tr, deriveTrigger s = Except.ok tr := by
    cases hd : deriveTrigger s with
    | error e =>
      unfold schedule_job at hok
      rw [hd] at hok
      simp at hok
    | ok tr => exact ⟨tr, rfl⟩
  obtain ⟨tr, htr⟩ := htr
  refine ⟨?_, ?_, ?_, ?_, ?_⟩
  · intro he
    simp [schedule_job, htr, he, countId_add_self]
  · intro he
    simp [schedule_job, htr, he, countId_add_self]
  · intro he
    simp [schedule_job, htr, he, countId_remove_self]
  · simp [delete_schedule, countId_remove_self]
  · intro ss h
    exact countId_reconcileSeq_le ss t _ h

/-- Witness for C1 at the spec's example schedule, starting from the empty
job table. -/
theorem c1_witness :
    (schedule_job [] schedOn).2 = none ∧ schedOn.enabled ≠ 0 ∧
    countId (schedule_job [] schedOn).1 (jobIdOf schedOn.id) = 1 ∧
    countId (schedule_job (schedule_job [] schedOn).1 schedOn).1 (jobIdOf schedOn.id) = 1 ∧
    countId (delete_schedule [schedOn] [] schedOn.id).2 (jobIdOf schedOn.id) = 0 := by
  have h := c1_reconcile_job_uniqueness [] schedOn [schedOn] rfl
  exact ⟨rfl, by decide, h.1 (by decide), h.2.1 (by decide), h.2.2.2.1⟩

/-- C2: with a reachable device, `_set_relay` issues no toggle when the
trimmed status body already equals the desired state, and exactly one toggle
when it differs. -/
theorem c2_relay_idempotent_toggle (dev : Device) (body : String) (turn_on : Bool)
    (h : dev.relaystatus = Except.ok body) :
    (pyStrip body = (if turn_on then "ON" else "OFF") →
      countToggles (set_relay dev turn_on) = 0) ∧
    (pyStrip body ≠ (if turn_on then "ON" else "OFF") →
      countToggles (set_relay dev turn_on) = 1) := by
  constructor <;> intro hcur <;>
    simp [set_relay, h, hcur, caught_eq, countToggles, List.filter]

/-- Witness for C2: a device reporting `"ON"` gets zero toggles for desired
state on and one toggle for desired state off. -/
theorem c2_witness :
    devOk.relaystatus = Except.ok "ON" ∧
    countToggles (set_relay devOk true) = 0 ∧
    countToggles (set_relay devOk false) = 1 :=
  ⟨rfl, (c2_relay_idempotent_toggle devOk "ON" true rfl).1 rfl,
    (c2_relay_idempotent_toggle devOk "ON" false rfl).2 (by decide)⟩

/-- C3: for a schedule selecting both relay and strip whose strip parameters
decode (always the case for action off), a trigger execution issues the
relay sub-step's calls followed by the strip call, whatever the device does:
a transport error in either sub-step is caught and never skips or aborts the
other. With action off the strip parameters are exactly `{on: 0}`, and the
relay status call is always attempted. -/
theorem c3_substeps_isolated (dev : Device) (s : Schedule) (ps : Params) (url : String)
    (hrelay : s.relay ≠ 0) (hstrip : s.strip ≠ 0)
    (hps : stripParams s = some ps) (hurl : url ≠ "") :
    execute_schedule [s] [("esp32_url", url)] dev s.id =
      Except.ok (set_relay dev (s.action == "on") ++ [Call.strip ps]) ∧
    (s.action ≠ "on" → ps = [("on", PVal.int 0)]) ∧
    Call.relaystatus ∈ set_relay dev (s.action == "on") := by
  refine ⟨?_, ?_, ?_⟩
  · simp [execute_schedule, get_config, List.find?, hurl, hrelay, hstrip,
      set_strip, hps, caught_eq]
  · intro ha
    rw [stripParams, if_neg ha] at hps
    exact (Option.some_inj.mp hps).symm
  · exact relaystatus_mem_set_relay dev (s.action == "on")

/-- Witness for C3: with the relay status call timing out, an action-off
schedule still sends `{on: 0}` to the strip. -/
theorem c3_witness :
    execute_schedule [schedOff] [("esp32_url", "http://192.168.1.100")] devTimeout schedOff.id =
      Except.ok [Call.relaystatus, Call.strip [("on", PVal.int 0)]] := by
  have h := c3_substeps_isolated devTimeout schedOff [("on", PVal.int 0)]
    "http://192.168.1.100" (by decide) (by decide) rfl (by decide)
  rw [h.1]
  rfl

/-- C4: the strip step with action on decodes a 6-hex-digit color,
optionally `#`-prefixed, into three 2-digit pairs and sends
`{on: 1, brightness, r, g, b, mode: "solid"}`; with any other action it
sends `{on: 0}`; `"#ff0000"` gives `r=255, g=0, b=0` and `"00ff00"` gives
`r=0, g=255, b=0`. -/
theorem c4_strip_color_decode (dev : Device) (s : Schedule)
    (a1 a2 a3 a4 a5 a6 : Char)
    (h1 : isHexDigitChar a1 = true) (h2 : isHexDigitChar a2 = true)
    (h3 : isHexDigitChar a3 = true) (h4 : isHexDigitChar a4 = true)
    (h5 : isHexDigitChar a5 = true) (h6 : isHexDigitChar a6 = true)
    (hc : s.color.data = [a1, a2, a3, a4, a5, a6] ∨
      s.color.data = ['#', a1, a2, a3, a4, a5, a6]) :
    (s.action = "on" → set_strip dev s = Except.ok [Call.strip
      [("on", PVal.int 1), ("brightness", PVal.int s.brightness),
       ("r", PVal.int (16 * hexVal a1 + hexVal a2)),
       ("g", PVal.int (16 * hexVal a3 + hexVal a4)),
       ("b", PVal.int (16 * hexVal a5 + hexVal a6)),
       ("mode", PVal.str "solid")]]) ∧
    (s.action ≠ "on" → set_strip dev s = Except.ok [Call.strip [("on", PVal.int 0)]]) ∧
    stripParams schedRed = some
      [("on", PVal.int 1), ("brightness", PVal.int 255), ("r", PVal.int 255),
       ("g", PVal.int 0), ("b", PVal.int 0), ("mode", PVal.str "solid")] ∧
    stripParams schedGreen = some
      [("on", PVal.int 1), ("brightness", PVal.int 255), ("r", PVal.int 0),
       ("g", PVal.int 255), ("b", PVal.int 0), ("mode", PVal.str "solid")] := by
  have hdrop : (pyLstripHash s.color).data = [a1, a2, a3, a4, a5, a6] := by
    rcases hc with hc | hc <;>
      simp [pyLstripHash, hc, List.dropWhile, hex_ne_hash h1]
  have hr : pyIntHex (pySlice (pyLstripHash s.color) 0 2) =
      some (16 * hexVal a1 + hexVal a2) := by
    simp [pySlice, pyIntHex, hdrop, h1, h2]
  have hg : pyIntHex (pySlice (pyLstripHash s.color) 2 4) =
      some (16 * hexVal a3 + hexVal a4) := by
    simp [pySlice, pyIntHex, hdrop, h3, h4]
  have hb : pyIntHex (pySlice (pyLstripHash s.color) 4 6) =
      some (16 * hexVal a5 + hexVal a6) := by
    simp [pySlice, pyIntHex, hdrop, h5, h6]
  refine ⟨?_, ?_, rfl, rfl⟩
  · intro ha
    simp [set_strip, stripParams, ha, hr, hg, hb, caught_eq]
  · intro ha
    simp [set_strip, stripParams, ha, caught_eq]

/-- Witness for C4 at color `"#ff0000"`. -/
theorem c4_witness :
    set_strip devOk schedRed = Except.ok [Call.strip
      [("on", PVal.int 1), ("brightness", PVal.int 255), ("r", PVal.int 255),
       ("g", PVal.int 0), ("b", PVal.int 0), ("mode", PVal.str "solid")]] := by
  have h := c4_strip_color_decode devOk schedRed 'f' 'f' '0' '0' '0' '0'
    (by decide) (by decide) (by decide) (by decide) (by decide) (by decide)
    (Or.inr rfl)
  rw [h.1 rfl]
  rfl

/-- C5: the trigger derivation maps every weekday index 0–6 to the weekday
names Monday…Sunday in order (0 = Monday, 6 = Sunday), in the cron
abbreviations. -/
theorem c5_weekday_mapping (d : Fin 7) :
    deriveTrigger { schedOn with days := toString d.val } =
      Except.ok ⟨specWeekdayName d, 18, 30⟩ := by
  fin_cases d <;> rfl

/-- C6: executing a schedule id that is absent from the store returns
normally with no device call issued. -/
theorem c6_deleted_schedule_benign (store : List Schedule)
    (config : List (String × String)) (dev : Device) (sid : Int)
    (h : store.find? (fun s => s.id == sid) = none) :
    execute_schedule store config dev sid = Except.ok [] := by
  unfold execute_schedule
  rw [h]

/-- Witness for C6: firing id 99 against a store that only holds id 1. -/
theorem c6_witness :
    execute_schedule [schedOn] [("esp32_url", "u")] devOk 99 = Except.ok [] :=
  c6_deleted_schedule_benign [schedOn] [("esp32_url", "u")] devOk 99 rfl

/-- C7 counterexample: updating an id absent from the store does not surface
`NotFound` as a recoverable result — `dict(fetchone())` raises `TypeError`,
an uncontrolled exception — refuting the claim at this concrete input. -/
theorem c7_counterexample :
    update_schedule [schedOn] [] 99 sampleData =
      ([schedOn], [], Except.error PyError.typeError) ∧
    PyError.typeError ≠ PyError.notFound :=
  ⟨rfl, by decide⟩

/-- C7 amended: updating an id absent from the store leaves the store and
job table unchanged, but fails by raising an uncontrolled `TypeError` (from
`dict(None)`) rather than surfacing `NotFound` as a recoverable result. -/
theorem c7_amended_update_absent (store : List Schedule) (jobs : JobTable)
    (sid : Int) (data : ScheduleData)
    (h : store.find? (fun s => s.id == sid) = none) :
    update_schedule store jobs sid data = (store, jobs, Except.error PyError.typeError) := by
  have hall : ∀ s ∈ store, (s.id == sid) = false := by
    intro s hs
    have := List.find?_eq_none.mp h s hs
    simpa using this
  simp only [update_schedule, map_keep_of_none store sid data hall, h]

/-- Witness for C7's amended claim at a concrete absent id. -/
theorem c7_witness :
    update_schedule [schedOff] [] 42 sampleData =
      ([schedOff], [], Except.error PyError.typeError) :=
  c7_amended_update_absent [schedOff] [] 42 sampleData rfl

/-- C8 counterexample: a stored schedule with a malformed color hex and
action on lets the `ValueError` raised by the color decode propagate past
the strip sub-step and out of the trigger execution — the `except` clause
catches only `RequestException` — refuting the claim at this concrete
record. -/
theorem c8_counterexample :
    execute_schedule [schedBadColor] [("esp32_url", "http://esp")] devOk schedBadColor.id =
      Except.error PyError.valueError :=
  rfl

/-- C8 amended: transport errors in the relay or strip sub-step never
propagate out of a trigger execution, whatever the device does; an unhandled
exception escapes only when the fired schedule selects the strip, has action
on, and its color hex fails to decode (and job derivation on a malformed
time or days raises to its caller, though it leaves the job table untouched). -/
theorem c8_amended_no_escape (store : List Schedule) (config : List (String × String))
    (dev : Device) (sid : Int)
    (h : ∀ s, store.find? (fun x => x.id == sid) = some s → s.strip ≠ 0 →
      (stripParams s).isSome = true) :
    (execute_schedule store config dev sid).isOk = true := by
  unfold execute_schedule
  cases hf : store.find? (fun x => x.id == sid) with
  | none => rfl
  | some s =>
    cases get_config config "esp32_url" with
    | none => rfl
    | some url =>
      dsimp only
      by_cases hu : url = ""
      · simp [hu, Except.isOk, Except.toBool]
      · rw [if_neg hu]
        by_cases hs : s.strip ≠ 0
        · have hps := h s hf hs
          cases hps2 : stripParams s with
          | none =>
            rw [hps2] at hps
            simp at hps
          | some ps => simp [hs, set_strip, hps2, caught_eq, Except.isOk, Except.toBool]
        · simp [hs, Except.isOk, Except.toBool]

/-- Witness for C8's amended claim: an action-off schedule fired against a
device whose relay status call times out raises nothing. -/
theorem c8_witness :
    (execute_schedule [schedOff] [("esp32_url", "u")] devTimeout 5).isOk = true := by
  apply c8_amended_no_escape
  intro s hs hstrip
  have h2 : some schedOff = some s := by
    rw [← hs]
    rfl
  have h3 := Option.some.inj h2
  subst h3
  rfl

/-- C9: when the device base URL key is absent from the config store, a
trigger execution returns normally and issues no device HTTP call at all. -/
theorem c9_missing_url_skips_device (store : List Schedule)
    (config : List (String × String)) (dev : Device) (sid : Int)
    (h : get_config config "esp32_url" = none) :
    execute_schedule store config dev sid = Except.ok [] := by
  unfold execute_schedule
  cases store.find? (fun s => s.id == sid) with
  | none => rfl
  | some s => rw [h]

/-- Witness for C9: a stored, enabled schedule fired with no `esp32_url`
key configured. -/
theorem c9_witness :
    execute_schedule [schedOn] [("other", "x")] devOk 1 = Except.ok [] :=
  c9_missing_url_skips_device [schedOn] [("other", "x")] devOk 1 rfl

/-- C10: the cron trigger is derived before the job table is touched, so
when the schedule's time or days fail to parse, `schedule_job` raises and
the job table — including any previously registered job for that id — is
returned unchanged. -/
theorem c10_parse_failure_leaves_table (t : JobTable) (s : Schedule) (e : PyError)
    (h : deriveTrigger s = Except.error e) :
    schedule_job t s = (t, some e) := by
  unfold schedule_job
  rw [h]

/-- Witness for C10: a schedule whose time has no `":"` leaves a previously
registered job table untouched and raises `ValueError`. -/
theorem c10_witness :
    schedule_job preJob schedBadTime = (preJob, some PyError.valueError) :=
  c10_parse_failure_leaves_table preJob schedBadTime PyError.valueError rfl

end Server
